import Mathlib

/-!
Verification of the vsomeip client-side routing proxy core
(`routing_manager_client`): a shallow embedding of the registration state
machine, the intent registry, the inbound security gate, the replay path
and the remote-subscriber bookkeeping, with theorems about them.
-/

namespace Vsomeip

/-- Registration lifecycle states of the routing proxy
(`inner_state_type_e`: `ST_DEREGISTERED`, `ST_ASSIGNING`, `ST_ASSIGNED`,
`ST_REGISTERING`, `ST_REGISTERED`). -/
inductive InnerState where
  | deregistered
  | assigning
  | assigned
  | registering
  | registered
deriving DecidableEq, Repr

/-- The sentinel client id before assignment. Only comparisons against it
occur in the modelled code, so the numeric value is immaterial. -/
def VSOMEIP_CLIENT_UNSET : Nat := 0xFFFF

/-- The reserved client id of the routing host (`VSOMEIP_ROUTING_CLIENT`). -/
def VSOMEIP_ROUTING_CLIENT : Nat := 0

/-- Sentinel distinguishing locally-originated subscribes from those relayed
by the host for a remote subscriber. Only equality with it is used. -/
def PENDING_SUBSCRIPTION_ID : Nat := 0xFFFFFFFF

/-- A `protocol::service` entry: (service, instance, major, minor). -/
structure Service where
  service : Nat
  inst : Nat
  major : Nat
  minor : Nat
deriving DecidableEq, Repr

/-- An entry of `pending_event_registrations_`: the data re-sent as a
`REGISTER_EVENT` registration (service, instance, notifier, type,
is_provided, reliability, is_cyclic, eventgroups). -/
structure EventReg where
  service : Nat
  inst : Nat
  notifier : Nat
  eventType : Nat
  isProvided : Bool
  reliability : Nat
  isCyclic : Bool
  eventgroups : List Nat
deriving DecidableEq, Repr

/-- Control commands the proxy writes to the routing host, as far as the
claims reference them (the `client` field of every envelope is the proxy's
own client id and is therefore left implicit). -/
inductive Command where
  | offerService (s : Service)
  | requestService (ss : List Service)
  | registerEvents (rs : List EventReg)
  | registeredAck
  | releaseService (service inst : Nat)
  | unsubscribeAck (service inst eventgroup pendingId : Nat)
  | registerApplication
  | deregisterApplication
deriving DecidableEq, Repr

/-- The members of `routing_manager_client` the verified operations touch:
the registration state, the register-application watchdog, and the intent
registry sets (`pending_offers_`, `pending_event_registrations_`,
`requests_`, `requests_to_debounce_`). The `std::set` members are modelled
as duplicate-free-by-insertion lists. -/
structure ProxyState where
  state : InnerState
  registerTimerArmed : Bool
  pendingOffers : List Service
  pendingEventRegistrations : List EventReg
  requests : List Service
  requestsToDebounce : List Service
  debounceTimerRunning : Bool
deriving DecidableEq, Repr

/-- `std::set::insert`: inserting an element already present changes
nothing. -/
def insertService (s : Service) (l : List Service) : List Service :=
  if s ∈ l then l else s :: l

/-- Set union as done by `requests_.insert(begin, end)`. -/
def unionServices (dst src : List Service) : List Service :=
  src.foldl (fun acc s => insertService s acc) dst

/-- The scan `it->service_ == _service && it->instance_ == _instance` used
by `release_service` and `stop_offer_service`. -/
def matchSI (s i : Nat) (x : Service) : Bool :=
  x.service == s && x.inst == i

/-- Whether some entry of the list matches (service, instance). -/
def containsSI (l : List Service) (s i : Nat) : Bool :=
  l.any (matchSI s i)

/-- Erase the first entry matching (service, instance), as the
break-then-erase loop of `release_service` does. -/
def eraseFirstSI (s i : Nat) : List Service → List Service
  | [] => []
  | x :: xs => if matchSI s i x then xs else x :: eraseFirstSI s i xs

/-- `remote_subscriber_count_`: (service, instance, eventgroup) → count,
flattened from the nested maps to an association list. -/
abbrev RCount := List ((Nat × Nat × Nat) × Nat)

/-- Lookup in the nested `remote_subscriber_count_` maps. -/
def rcLookup (m : RCount) (k : Nat × Nat × Nat) : Option Nat :=
  match m with
  | [] => none
  | (k2, n) :: rest => if k2 = k then some n else rcLookup rest k

/-- Store a count for a key, overwriting an existing entry. -/
def rcUpdate (m : RCount) (k : Nat × Nat × Nat) (n : Nat) : RCount :=
  match m with
  | [] => [(k, n)]
  | (k2, n2) :: rest =>
      if k2 = k then (k, n) :: rest else (k2, n2) :: rcUpdate rest k n

/-- `routing_manager_client::get_remote_subscriber_count`: when the entry
exists, increment it, or decrement it only while positive; when it does not
exist, create it with count 1 only on increment. Returns the resulting
count (0 for a missing entry) and the updated map. -/
def get_remote_subscriber_count (m : RCount) (s i eg : Nat) (increment : Bool) :
    Nat × RCount :=
  match rcLookup m (s, i, eg) with
  | some n =>
      if increment then (n + 1, rcUpdate m (s, i, eg) (n + 1))
      else if 0 < n then (n - 1, rcUpdate m (s, i, eg) (n - 1))
      else (0, m)
  | none =>
      if increment then (1, rcUpdate m (s, i, eg) 1) else (0, m)

/-- Input of the security gate at the head of
`routing_manager_client::on_message`: configuration flags, the client id the
connection is bound to, the client field of the received command, the
routing host id, and — for non-local routing — whether the remote address
and port match the routing host address and its port + 1. -/
structure GateInput where
  securityEnabled : Bool
  localRouting : Bool
  boundClient : Nat
  cmdClient : Nat
  routingHostId : Nat
  remoteAddrIsRoutingHost : Bool
  remotePortIsRoutingPortPlus1 : Bool
deriving DecidableEq, Repr

/-- The `is_from_routing` determination of `on_message`: with security and
local routing the bound client must be the routing host id; with security
and non-local routing the remote endpoint must be (host address, host
port + 1); without security the command client field is compared. -/
def is_from_routing (g : GateInput) : Bool :=
  if g.securityEnabled then
    if g.localRouting then g.boundClient == g.routingHostId
    else g.remoteAddrIsRoutingHost && g.remotePortIsRoutingPortPlus1
  else g.cmdClient == g.routingHostId

/-- The drop decision of `on_message`: with security enabled and local
routing, a frame that is not from the routing host and whose command client
field differs from the bound client is skipped. Returns true when dispatch
proceeds. -/
def securityGatePasses (g : GateInput) : Bool :=
  !(g.securityEnabled && g.localRouting && !(is_from_routing g)
      && !(g.boundClient == g.cmdClient))

/-- `routing_manager_client::offer_service`: while `ST_REGISTERED` the
`OFFER_SERVICE` command is sent (unconditionally, before the bookkeeping),
then the offer is inserted into `pending_offers_`. Returns the new state
and the emitted commands. -/
def offer_service (st : ProxyState) (s : Service) : ProxyState × List Command :=
  let ems := if st.state = InnerState.registered then [Command.offerService s] else []
  ({ st with pendingOffers := insertService s st.pendingOffers }, ems)

/-- `routing_manager_client::request_service` for one service: with a zero
debounce time the request is sent at once while `ST_REGISTERED` and added
to `requests_`; with a positive debounce time it is only buffered in
`requests_to_debounce_` and the debounce timer is started if not yet
running. -/
def request_service (st : ProxyState) (s : Service) (debounceTime : Nat) :
    ProxyState × List Command :=
  if debounceTime = 0 then
    let ems :=
      if st.state = InnerState.registered then [Command.requestService [s]] else []
    ({ st with requests := insertService s st.requests }, ems)
  else
    ({ st with requestsToDebounce := insertService s st.requestsToDebounce,
               debounceTimerRunning := true }, [])

/-- `routing_manager_client::release_service`: the debounce buffer is
scanned for a first matching (service, instance) entry, which is erased;
only when no such entry was pending and the proxy is `ST_REGISTERED` is a
`RELEASE_SERVICE` command sent; finally the first matching entry of
`requests_` is erased as well. -/
def release_service (st : ProxyState) (s i : Nat) : ProxyState × List Command :=
  let pending := containsSI st.requestsToDebounce s i
  let ems :=
    if pending = false ∧ st.state = InnerState.registered then
      [Command.releaseService s i]
    else []
  ({ st with requestsToDebounce := eraseFirstSI s i st.requestsToDebounce,
             requests := eraseFirstSI s i st.requests }, ems)

/-- Result of one run of the request-debounce timer callback. `rearmed`
records that the callback re-armed the timer for another debounce interval
instead of flushing. -/
structure DebounceResult where
  st : ProxyState
  emitted : List Command
  rearmed : Bool
deriving DecidableEq, Repr

/-- `routing_manager_client::request_debounce_timeout_cbk`: without error
and with a non-empty debounce buffer, while `ST_REGISTERED` the whole
buffer is flushed as one `REQUEST_SERVICE`, merged into `requests_` and
cleared; otherwise the timer is re-armed and the running flag kept. In the
remaining cases the running flag is cleared. -/
def request_debounce_timeout_cbk (st : ProxyState) (err : Bool) : DebounceResult :=
  if err then
    { st := { st with debounceTimerRunning := false }, emitted := [], rearmed := false }
  else if st.requestsToDebounce = [] then
    { st := { st with debounceTimerRunning := false }, emitted := [], rearmed := false }
  else if st.state = InnerState.registered then
    { st := { st with requests := unionServices st.requests st.requestsToDebounce,
                      requestsToDebounce := [],
                      debounceTimerRunning := false },
      emitted := [Command.requestService st.requestsToDebounce],
      rearmed := false }
  else
    { st := st, emitted := [], rearmed := true }

/-- Result of the `UNSUBSCRIBE_ID` / `EXPIRE_ID` arms of `on_message`:
the updated remote-subscriber map, whether the local subscription was
withdrawn (`routing_manager_base::unsubscribe` invoked), and whether an
`UNSUBSCRIBE_ACK` was sent. -/
structure UnsubscribeResult where
  rcount : RCount
  localUnsubscribe : Bool
  ackSent : Bool
deriving DecidableEq, Repr

/-- The `UNSUBSCRIBE_ID` arm of `on_message`: a local subscriber
(`pending_id == PENDING_SUBSCRIPTION_ID`) is withdrawn directly; for a
remote subscriber the count is decremented, the subscription is withdrawn
only when it reached zero, and an `UNSUBSCRIBE_ACK` is sent either way. -/
def on_unsubscribe (rc : RCount) (s i eg pendingId : Nat) : UnsubscribeResult :=
  if pendingId = PENDING_SUBSCRIPTION_ID then
    { rcount := rc, localUnsubscribe := true, ackSent := false }
  else
    let r := get_remote_subscriber_count rc s i eg false
    { rcount := r.2, localUnsubscribe := r.1 == 0, ackSent := true }

/-- The `EXPIRE_ID` arm of `on_message`: identical bookkeeping to
`UNSUBSCRIBE_ID`, but no `UNSUBSCRIBE_ACK` is sent. -/
def on_expire (rc : RCount) (s i eg pendingId : Nat) : UnsubscribeResult :=
  if pendingId = PENDING_SUBSCRIPTION_ID then
    { rcount := rc, localUnsubscribe := true, ackSent := false }
  else
    let r := get_remote_subscriber_count rc s i eg false
    { rcount := r.2, localUnsubscribe := r.1 == 0, ackSent := false }

/-- The frames written by `send_pending_commands` when every send succeeds:
first one `OFFER_SERVICE` per entry of `pending_offers_`, then — because
the conjunction evaluates `send_pending_event_registrations` before
`send_request_services` — one `REGISTER_EVENT` command carrying all pending
event registrations (none when the set is empty; the size-limit overflow
path of the batching loop, which cannot make progress, is not modelled),
and last one `REQUEST_SERVICE` carrying `requests_` when that set is
non-empty. -/
def send_pending_commands_emitted (st : ProxyState) : List Command :=
  st.pendingOffers.map Command.offerService
    ++ (if st.pendingEventRegistrations = [] then []
        else [Command.registerEvents st.pendingEventRegistrations])
    ++ (if st.requests = [] then [] else [Command.requestService st.requests])

/-- Outcome of the `RIE_ADD_CLIENT`-for-own-client arm of
`on_routing_info`: the registration state and watchdog after the arm, the
frames written, whether `start_keepalive` was invoked, and the
`on_state` notifications delivered to the application host. -/
structure RoutingInfoResult where
  state : InnerState
  registerTimerArmed : Bool
  keepaliveStartCalled : Bool
  emitted : List Command
  hostNotified : List InnerState
deriving DecidableEq, Repr

/-- The `RIE_ADD_CLIENT` arm of `on_routing_info` for the proxy's own
client id. `credentialsOk` is the result of `check_credentials` (always
true on platforms without the check); `ackOk` and `pendingOk` are the
results of `send_registered_ack` and `send_pending_commands`;
`connectedAndSender` decides whether a failed credential check's
`DEREGISTER_APPLICATION` reaches the wire; `replayOnFail` stands for the
prefix of the replay that was written before `send_pending_commands`
failed. While `ST_REGISTERING`, a fully successful commit moves to
`ST_REGISTERED`, cancels the register watchdog, starts keepalive and
notifies the host; a failed send leaves the state (and the armed watchdog)
as they were; while already `ST_REGISTERED` only a log line is produced. -/
def on_routing_info_add_client_self (st : ProxyState)
    (credentialsOk ackOk pendingOk connectedAndSender : Bool)
    (replayOnFail : List Command) : RoutingInfoResult :=
  if credentialsOk = false then
    { state := st.state, registerTimerArmed := st.registerTimerArmed,
      keepaliveStartCalled := false,
      emitted := if connectedAndSender then [Command.deregisterApplication] else [],
      hostNotified := [InnerState.deregistered] }
  else if st.state = InnerState.registering then
    if ackOk && pendingOk then
      { state := InnerState.registered, registerTimerArmed := false,
        keepaliveStartCalled := true,
        emitted := Command.registeredAck :: send_pending_commands_emitted st,
        hostNotified := [InnerState.registered] }
    else
      { state := InnerState.registering,
        registerTimerArmed := st.registerTimerArmed,
        keepaliveStartCalled := false,
        emitted := if ackOk then Command.registeredAck :: replayOnFail else [],
        hostNotified := [] }
  else if st.state = InnerState.registered then
    { state := st.state, registerTimerArmed := st.registerTimerArmed,
      keepaliveStartCalled := false, emitted := [], hostNotified := [] }
  else
    { state := st.state, registerTimerArmed := st.registerTimerArmed,
      keepaliveStartCalled := false, emitted := [], hostNotified := [] }

/-- `register_application_timeout_cbk`: when the timer elapsed without
being cancelled and registration did not complete, the state falls back to
`ST_DEREGISTERED` and the sender is restarted. Returns the new state and
whether a restart was requested. -/
def register_application_timeout_cbk (s : InnerState) (err : Bool) :
    InnerState × Bool :=
  if err = false ∧ s ≠ InnerState.registered then (InnerState.deregistered, true)
  else (s, false)

/-- Outcome of `on_client_assign_ack`: the registration state and register
watchdog afterwards, every `host_->set_client` call made, whether a
`REGISTER_APPLICATION` was sent, and whether the sender was restarted. -/
structure AssignAckResult where
  state : InnerState
  registerTimerArmed : Bool
  setClientCalls : List Nat
  registerAppSent : Bool
  senderRestarted : Bool
deriving DecidableEq, Repr

/-- `on_client_assign_ack` together with the `register_application` it may
invoke. Outside `ST_ASSIGNING`, or when the assigned id is
`VSOMEIP_CLIENT_UNSET`, only a log line is produced. Otherwise the state
becomes `ST_ASSIGNED`, the watchdog is cancelled and the host client id is
set; when started with a receiver present and a connected sender,
`REGISTER_APPLICATION` is sent and the state becomes `ST_REGISTERING` with
the watchdog re-armed; when the receiver is absent the state falls back to
`ST_DEREGISTERED`, the client id is unset again and the sender
restarted. -/
def on_client_assign_ack (prev : InnerState) (timerArmed : Bool) (client : Nat)
    (isStarted receiverPresent isConnected senderPresent : Bool) : AssignAckResult :=
  if prev = InnerState.assigning then
    if client ≠ VSOMEIP_CLIENT_UNSET then
      if isStarted then
        if receiverPresent then
          if isConnected ∧ senderPresent then
            { state := InnerState.registering, registerTimerArmed := true,
              setClientCalls := [client], registerAppSent := true,
              senderRestarted := false }
          else
            { state := InnerState.assigned, registerTimerArmed := false,
              setClientCalls := [client], registerAppSent := false,
              senderRestarted := false }
        else
          { state := InnerState.deregistered, registerTimerArmed := false,
            setClientCalls := [client, VSOMEIP_CLIENT_UNSET],
            registerAppSent := false, senderRestarted := senderPresent }
      else
        { state := InnerState.assigned, registerTimerArmed := false,
          setClientCalls := [client], registerAppSent := false,
          senderRestarted := false }
    else
      { state := prev, registerTimerArmed := timerArmed, setClientCalls := [],
        registerAppSent := false, senderRestarted := false }
  else
    { state := prev, registerTimerArmed := timerArmed, setClientCalls := [],
      registerAppSent := false, senderRestarted := false }

/-- Discriminators and payload of the replay commands, used to state
ordering properties of the replay. -/
def isOfferCmd : Command → Bool
  | Command.offerService _ => true
  | _ => false

/-- True exactly for `REGISTER_EVENT` commands. -/
def isRegisterEventsCmd : Command → Bool
  | Command.registerEvents _ => true
  | _ => false

/-- True exactly for `REQUEST_SERVICE` commands. -/
def isRequestCmd : Command → Bool
  | Command.requestService _ => true
  | _ => false

/-- The registrations carried by a `REGISTER_EVENT` command. -/
def registerEventsPayload : Command → Option (List EventReg)
  | Command.registerEvents rs => some rs
  | _ => none

/-- Phase number of a replay command: offers before register-events before
the request command. -/
def replayRank : Command → Nat
  | Command.offerService _ => 0
  | Command.registerEvents _ => 1
  | Command.requestService _ => 2
  | _ => 3

end Vsomeip

namespace Vsomeip

theorem mem_insertService (x s : Service) (l : List Service) :
    x ∈ insertService s l ↔ x = s ∨ x ∈ l := by
  by_cases h : s ∈ l
  · simp only [insertService, if_pos h]
    constructor
    · exact fun hx => Or.inr hx
    · intro hx
      rcases hx with hx | hx
      · rw [hx]; exact h
      · exact hx
  · simp [insertService, if_neg h, List.mem_cons]

theorem insertService_idem (s : Service) (l : List Service) :
    insertService s (insertService s l) = insertService s l := by
  by_cases h : s ∈ l
  · simp [insertService, h]
  · simp [insertService, h]

theorem mem_unionServices (x : Service) (b a : List Service) :
    x ∈ unionServices a b ↔ x ∈ a ∨ x ∈ b := by
  induction b generalizing a with
  | nil => simp [unionServices]
  | cons hd tl ih =>
      have h1 : unionServices a (hd :: tl) = unionServices (insertService hd a) tl := rfl
      rw [h1, ih, mem_insertService]
      simp only [List.mem_cons]
      tauto

theorem rcLookup_rcUpdate_self (m : RCount) (k : Nat × Nat × Nat) (n : Nat) :
    rcLookup (rcUpdate m k n) k = some n := by
  induction m with
  | nil => simp [rcUpdate, rcLookup]
  | cons hd tl ih =>
      obtain ⟨k2, n2⟩ := hd
      by_cases h : k2 = k
      · simp [rcUpdate, rcLookup, h]
      · simp [rcUpdate, rcLookup, h, ih]

/-- C10: the remote-subscriber counter is saturating and sparse: a
decrementing call on an absent entry returns 0 and leaves the map unchanged
(no entry is created), a decrementing call on an entry holding 0 returns 0
and leaves the map unchanged (the count never goes negative), and an
incrementing call on an absent entry creates the entry with count exactly
1. -/
theorem remote_subscriber_count_saturating (m : RCount) (s i eg : Nat) :
    (rcLookup m (s, i, eg) = none →
        get_remote_subscriber_count m s i eg false = (0, m)
      ∧ (get_remote_subscriber_count m s i eg true).1 = 1
      ∧ rcLookup (get_remote_subscriber_count m s i eg true).2 (s, i, eg) = some 1)
    ∧ (rcLookup m (s, i, eg) = some 0 →
        get_remote_subscriber_count m s i eg false = (0, m)) := by
  constructor
  · intro h
    refine ⟨?_, ?_, ?_⟩
    · simp [get_remote_subscriber_count, h]
    · simp [get_remote_subscriber_count, h]
    · simp [get_remote_subscriber_count, h, rcLookup_rcUpdate_self]
  · intro h
    simp [get_remote_subscriber_count, h]

/-- Witness for C10 at a concrete map missing the key (7, 8, 9). -/
theorem remote_subscriber_count_saturating_witness :
    rcLookup [(((1 : Nat), (2 : Nat), (3 : Nat)), (4 : Nat))] (7, 8, 9) = none
    ∧ (rcLookup [(((1 : Nat), (2 : Nat), (3 : Nat)), (4 : Nat))] (7, 8, 9) = none →
        get_remote_subscriber_count [(((1 : Nat), (2 : Nat), (3 : Nat)), (4 : Nat))] 7 8 9 false
          = (0, [(((1 : Nat), (2 : Nat), (3 : Nat)), (4 : Nat))])
      ∧ (get_remote_subscriber_count [(((1 : Nat), (2 : Nat), (3 : Nat)), (4 : Nat))] 7 8 9 true).1 = 1
      ∧ rcLookup (get_remote_subscriber_count [(((1 : Nat), (2 : Nat), (3 : Nat)), (4 : Nat))] 7 8 9 true).2
          (7, 8, 9) = some 1) :=
  ⟨by decide, (remote_subscriber_count_saturating _ 7 8 9).1⟩

/-- C4: with security enabled and local routing, a frame that is not from
the routing host is dispatched exactly when the client field of the command
equals the client id bound to the connection; otherwise it is dropped. -/
theorem inbound_security_gate (g : GateInput)
    (hs : g.securityEnabled = true) (hl : g.localRouting = true)
    (hn : is_from_routing g = false) :
    securityGatePasses g = true ↔ g.cmdClient = g.boundClient := by
  simp only [securityGatePasses, hs, hl, hn]
  simp [beq_iff_eq]
  exact eq_comm

/-- Witness for C4: a frame from client 5 on a connection bound to client 5
with the routing host at id 1 passes the gate. -/
theorem inbound_security_gate_witness :
    is_from_routing ⟨true, true, 5, 5, 1, false, false⟩ = false
    ∧ (securityGatePasses ⟨true, true, 5, 5, 1, false, false⟩ = true ↔ (5 : Nat) = 5) :=
  ⟨by decide, inbound_security_gate ⟨true, true, 5, 5, 1, false, false⟩ rfl rfl (by decide)⟩

/-- C3, counterexample: while `ST_REGISTERED`, a second `offer_service`
call for the ServiceKey (0x1111, 0x2222, 1, 0) — already present in
`pending_offers_` after the first call — still emits on the network,
refuting the claim that later calls cause no network effect. -/
theorem offer_service_resends_on_repeat :
    (offer_service
        (offer_service
            ⟨InnerState.registered, false, [], [], [], [], false⟩
            ⟨0x1111, 0x2222, 1, 0⟩).1
        ⟨0x1111, 0x2222, 1, 0⟩).2 ≠ [] := by decide

/-- C3, amended: while `ST_REGISTERED`, every `offer_service` call for a
ServiceKey emits one `OFFER_SERVICE` — including repeated calls for the
same key, since the send is not guarded by prior membership; only the
`pending_offers_` bookkeeping is idempotent: a repeated call leaves the set
unchanged. -/
theorem offer_service_emission_per_call (st : ProxyState) (s : Service)
    (h : st.state = InnerState.registered) :
    (offer_service st s).2 = [Command.offerService s]
    ∧ (offer_service (offer_service st s).1 s).2 = [Command.offerService s]
    ∧ (offer_service (offer_service st s).1 s).1.pendingOffers
        = (offer_service st s).1.pendingOffers := by
  refine ⟨by simp [offer_service, h], by simp [offer_service, h], ?_⟩
  simp [offer_service, insertService_idem]

/-- Witness for C3 (amended) at a registered proxy with empty intent sets
and the ServiceKey (1, 2, 3, 4). -/
theorem offer_service_emission_per_call_witness :
    (⟨InnerState.registered, false, [], [], [], [], false⟩ : ProxyState).state
        = InnerState.registered
    ∧ ((offer_service ⟨InnerState.registered, false, [], [], [], [], false⟩ ⟨1, 2, 3, 4⟩).2
          = [Command.offerService ⟨1, 2, 3, 4⟩]
      ∧ (offer_service
            (offer_service ⟨InnerState.registered, false, [], [], [], [], false⟩ ⟨1, 2, 3, 4⟩).1
            ⟨1, 2, 3, 4⟩).2 = [Command.offerService ⟨1, 2, 3, 4⟩]
      ∧ (offer_service
            (offer_service ⟨InnerState.registered, false, [], [], [], [], false⟩ ⟨1, 2, 3, 4⟩).1
            ⟨1, 2, 3, 4⟩).1.pendingOffers
          = (offer_service ⟨InnerState.registered, false, [], [], [], [], false⟩ ⟨1, 2, 3, 4⟩).1.pendingOffers) :=
  ⟨by decide, offer_service_emission_per_call _ _ (by decide)⟩

/-- C5: for an inbound `UNSUBSCRIBE` or `EXPIRE` whose pending id is not
`PENDING_SUBSCRIPTION_ID` (a remote subscriber), the remote-subscriber
count of (service, instance, eventgroup) is decremented, the local
subscription is withdrawn exactly when the decremented count is zero, and
for `UNSUBSCRIBE` — but not `EXPIRE` — an `UNSUBSCRIBE_ACK` is sent whether
or not the withdrawal happened. -/
theorem remote_unsubscribe_count_decrement (rc : RCount) (s i eg pid n : Nat)
    (hpid : pid ≠ PENDING_SUBSCRIPTION_ID)
    (hc : rcLookup rc (s, i, eg) = some (n + 1)) :
    (rcLookup (on_unsubscribe rc s i eg pid).rcount (s, i, eg) = some n
      ∧ ((on_unsubscribe rc s i eg pid).localUnsubscribe = true ↔ n = 0)
      ∧ (on_unsubscribe rc s i eg pid).ackSent = true)
    ∧ (rcLookup (on_expire rc s i eg pid).rcount (s, i, eg) = some n
      ∧ ((on_expire rc s i eg pid).localUnsubscribe = true ↔ n = 0)
      ∧ (on_expire rc s i eg pid).ackSent = false) := by
  unfold on_unsubscribe on_expire
  simp [hpid, get_remote_subscriber_count, hc, rcLookup_rcUpdate_self]

/-- Witness for C5: one remote subscriber on (1, 2, 3); the unsubscribe
with pending id 7 makes the count 0 and withdraws the local
subscription. -/
theorem remote_unsubscribe_count_decrement_witness :
    ((7 : Nat) ≠ PENDING_SUBSCRIPTION_ID
      ∧ rcLookup [((1, 2, 3), 1)] (1, 2, 3) = some (0 + 1))
    ∧ ((rcLookup (on_unsubscribe [((1, 2, 3), 1)] 1 2 3 7).rcount (1, 2, 3) = some 0
      ∧ ((on_unsubscribe [((1, 2, 3), 1)] 1 2 3 7).localUnsubscribe = true ↔ 0 = 0)
      ∧ (on_unsubscribe [((1, 2, 3), 1)] 1 2 3 7).ackSent = true)
    ∧ (rcLookup (on_expire [((1, 2, 3), 1)] 1 2 3 7).rcount (1, 2, 3) = some 0
      ∧ ((on_expire [((1, 2, 3), 1)] 1 2 3 7).localUnsubscribe = true ↔ 0 = 0)
      ∧ (on_expire [((1, 2, 3), 1)] 1 2 3 7).ackSent = false)) :=
  ⟨⟨by decide, by decide⟩,
    remote_unsubscribe_count_decrement [((1, 2, 3), 1)] 1 2 3 7 0 (by decide) (by decide)⟩

/-- C6: when the debounce timer elapses without error and the debounce
buffer is non-empty: while `ST_REGISTERED` everything buffered is flushed
as a single `REQUEST_SERVICE`, merged into `requests_`, and the buffer is
emptied with the timer stopped; while not `ST_REGISTERED` nothing is sent,
the state is untouched and the timer is re-armed for another interval. -/
theorem request_debounce_flush (st : ProxyState)
    (hne : st.requestsToDebounce ≠ []) :
    (st.state = InnerState.registered →
        (request_debounce_timeout_cbk st false).emitted
            = [Command.requestService st.requestsToDebounce]
        ∧ (request_debounce_timeout_cbk st false).st.requestsToDebounce = []
        ∧ (∀ x : Service, x ∈ (request_debounce_timeout_cbk st false).st.requests
              ↔ x ∈ st.requests ∨ x ∈ st.requestsToDebounce)
        ∧ (request_debounce_timeout_cbk st false).st.debounceTimerRunning = false
        ∧ (request_debounce_timeout_cbk st false).rearmed = false)
    ∧ (st.state ≠ InnerState.registered →
        (request_debounce_timeout_cbk st false).emitted = []
        ∧ (request_debounce_timeout_cbk st false).st = st
        ∧ (request_debounce_timeout_cbk st false).rearmed = true) := by
  constructor
  · intro hreg
    simp [request_debounce_timeout_cbk, hne, hreg, mem_unionServices]
  · intro hreg
    simp [request_debounce_timeout_cbk, hne, hreg]

/-- Witness for C6: a registered proxy with service (1, 2, 3, 4) buffered
flushes it. -/
theorem request_debounce_flush_witness :
    (⟨InnerState.registered, false, [], [], [], [⟨1, 2, 3, 4⟩], true⟩ : ProxyState).requestsToDebounce ≠ []
    ∧ ((⟨InnerState.registered, false, [], [], [], [⟨1, 2, 3, 4⟩], true⟩ : ProxyState).state
            = InnerState.registered →
        (request_debounce_timeout_cbk
            ⟨InnerState.registered, false, [], [], [], [⟨1, 2, 3, 4⟩], true⟩ false).emitted
          = [Command.requestService [⟨1, 2, 3, 4⟩]]
        ∧ (request_debounce_timeout_cbk
            ⟨InnerState.registered, false, [], [], [], [⟨1, 2, 3, 4⟩], true⟩ false).st.requestsToDebounce = []
        ∧ (∀ x : Service, x ∈ (request_debounce_timeout_cbk
              ⟨InnerState.registered, false, [], [], [], [⟨1, 2, 3, 4⟩], true⟩ false).st.requests
              ↔ x ∈ ([] : List Service) ∨ x ∈ [(⟨1, 2, 3, 4⟩ : Service)])
        ∧ (request_debounce_timeout_cbk
            ⟨InnerState.registered, false, [], [], [], [⟨1, 2, 3, 4⟩], true⟩ false).st.debounceTimerRunning = false
        ∧ (request_debounce_timeout_cbk
            ⟨InnerState.registered, false, [], [], [], [⟨1, 2, 3, 4⟩], true⟩ false).rearmed = false) :=
  ⟨by decide,
    (request_debounce_flush ⟨InnerState.registered, false, [], [], [], [⟨1, 2, 3, 4⟩], true⟩
      (by decide)).1⟩

theorem matchSI_self (s : Service) : matchSI s.service s.inst s = true := by
  simp [matchSI]

theorem not_mem_of_containsSI_false {l : List Service} {s i : Nat}
    (h : containsSI l s i = false) {x : Service} (hx : x ∈ l) :
    ¬(x.service = s ∧ x.inst = i) := by
  intro hsi
  have hmatch : matchSI s i x = true := by
    simp [matchSI, hsi.1, hsi.2]
  have : containsSI l s i = true := List.any_eq_true.mpr ⟨x, hx, hmatch⟩
  rw [h] at this
  cases this

/-- C7: a service buffered by `request_service` under a positive debounce
time and released by `release_service` before the flush is removed from the
debounce buffer silently: the buffered request itself emitted nothing, the
release emits no `RELEASE_SERVICE`, no entry for that (service, instance)
remains buffered, and the eventual debounce flush emission cannot contain
it. -/
theorem release_before_flush_cancels (st : ProxyState) (svc : Service) (d : Nat)
    (hd : 0 < d)
    (h0 : containsSI st.requestsToDebounce svc.service svc.inst = false) :
    (request_service st svc d).2 = []
    ∧ (release_service (request_service st svc d).1 svc.service svc.inst).2 = []
    ∧ containsSI
        (release_service (request_service st svc d).1 svc.service svc.inst).1.requestsToDebounce
        svc.service svc.inst = false
    ∧ ∀ l : List Service,
        Command.requestService l ∈
          (request_debounce_timeout_cbk
            (release_service (request_service st svc d).1 svc.service svc.inst).1
            false).emitted →
        ∀ x ∈ l, ¬(x.service = svc.service ∧ x.inst = svc.inst) := by
  have hdne : d ≠ 0 := Nat.pos_iff_ne_zero.mp hd
  have hnotmem : svc ∉ st.requestsToDebounce := by
    intro hm
    have : containsSI st.requestsToDebounce svc.service svc.inst = true :=
      List.any_eq_true.mpr ⟨svc, hm, matchSI_self svc⟩
    rw [h0] at this
    cases this
  have hins : insertService svc st.requestsToDebounce = svc :: st.requestsToDebounce :=
    if_neg hnotmem
  have hreq :
      (request_service st svc d).1
        = { st with requestsToDebounce := svc :: st.requestsToDebounce,
                    debounceTimerRunning := true } := by
    simp [request_service, hdne, hins]
  have hpend :
      containsSI (svc :: st.requestsToDebounce) svc.service svc.inst = true := by
    simp [containsSI, List.any_cons, matchSI_self svc]
  have herase :
      eraseFirstSI svc.service svc.inst (svc :: st.requestsToDebounce)
        = st.requestsToDebounce := by
    simp [eraseFirstSI, matchSI_self svc]
  refine ⟨by simp [request_service, hdne], ?_, ?_, ?_⟩
  · rw [hreq]
    simp [release_service, hpend]
  · rw [hreq]
    simp [release_service, herase, h0]
  · intro l hl x hx
    rw [hreq] at hl
    simp only [release_service, hpend, herase] at hl
    by_cases hemp : st.requestsToDebounce = []
    · simp [request_debounce_timeout_cbk, hemp] at hl
    · by_cases hreg : st.state = InnerState.registered
      · simp [request_debounce_timeout_cbk, hemp, hreg] at hl
        subst hl
        exact not_mem_of_containsSI_false h0 hx
      · simp [request_debounce_timeout_cbk, hemp, hreg] at hl

/-- Witness for C7: a registered proxy with an empty debounce buffer
requests (1, 2, 3, 4) with debounce time 50 and releases (1, 2) before the
flush. -/
theorem release_before_flush_cancels_witness :
    ((0 : Nat) < 50
      ∧ containsSI
          (⟨InnerState.registered, false, [], [], [], [], false⟩ : ProxyState).requestsToDebounce
          1 2 = false)
    ∧ ((request_service ⟨InnerState.registered, false, [], [], [], [], false⟩ ⟨1, 2, 3, 4⟩ 50).2 = []
    ∧ (release_service
        (request_service ⟨InnerState.registered, false, [], [], [], [], false⟩ ⟨1, 2, 3, 4⟩ 50).1
        1 2).2 = []
    ∧ containsSI
        (release_service
          (request_service ⟨InnerState.registered, false, [], [], [], [], false⟩ ⟨1, 2, 3, 4⟩ 50).1
          1 2).1.requestsToDebounce 1 2 = false
    ∧ ∀ l : List Service,
        Command.requestService l ∈
          (request_debounce_timeout_cbk
            (release_service
              (request_service ⟨InnerState.registered, false, [], [], [], [], false⟩ ⟨1, 2, 3, 4⟩ 50).1
              1 2).1 false).emitted →
        ∀ x ∈ l, ¬(x.service = 1 ∧ x.inst = 2)) :=
  ⟨⟨by decide, by decide⟩,
    release_before_flush_cancels ⟨InnerState.registered, false, [], [], [], [], false⟩
      ⟨1, 2, 3, 4⟩ 50 (by decide) (by decide)⟩

/-- C2, counterexample: at a state holding one pending offer, one provided
event registration and one sent request, the replay is not the claimed
sequence offer, then request, then register-event — the code emits the
register-event command before the request command. -/
theorem replay_order_as_claimed_false :
    send_pending_commands_emitted
        ⟨InnerState.registering, true, [⟨1, 2, 3, 4⟩],
          [⟨1, 2, 10, 0, true, 0, false, [5]⟩], [⟨6, 7, 8, 9⟩], [], false⟩
      ≠ [Command.offerService ⟨1, 2, 3, 4⟩,
          Command.requestService [⟨6, 7, 8, 9⟩],
          Command.registerEvents [⟨1, 2, 10, 0, true, 0, false, [5]⟩]] := by decide

/-- C2, amended: the replay on the transition from Registering to
Registered emits one `OFFER_SERVICE` per entry of `pending_offers_`, then
the `REGISTER_EVENT` command for all pending event registrations (provided
or not), then one `REQUEST_SERVICE` carrying the previously sent requests
(if any), in exactly that order: offers, register-events and the request
command occur in non-decreasing phase order, with exactly the stated
contents in each phase. -/
theorem replay_order (st : ProxyState) :
    ((send_pending_commands_emitted st).filter isOfferCmd
        = st.pendingOffers.map Command.offerService)
    ∧ (((send_pending_commands_emitted st).filterMap registerEventsPayload).flatten
        = st.pendingEventRegistrations)
    ∧ ((send_pending_commands_emitted st).filter isRequestCmd
        = (if st.requests = [] then [] else [Command.requestService st.requests]))
    ∧ (send_pending_commands_emitted st).Pairwise
        (fun a b => replayRank a ≤ replayRank b) := by
  have hcomp : (isOfferCmd ∘ Command.offerService) = fun _ => true := rfl
  unfold send_pending_commands_emitted
  by_cases hr : st.pendingEventRegistrations = [] <;>
    by_cases hq : st.requests = [] <;>
      simp [hr, hq, List.filter_append, List.filterMap_append, List.filter_map,
            List.filterMap_map, Function.comp, isOfferCmd, isRegisterEventsCmd,
            isRequestCmd, registerEventsPayload, replayRank, hcomp,
            List.pairwise_append, List.pairwise_map, List.mem_map] <;>
      exact List.pairwise_of_forall (fun _ _ => trivial)

/-- C1: while `ST_REGISTERING`, a routing-info `ADD_CLIENT` entry for the
proxy's own client id commits atomically: when both sends succeed the state
becomes `ST_REGISTERED` with the watchdog cancelled, keepalive started, the
host notified, and the `REGISTERED_ACK` followed by the full replay on the
wire; when any send fails, nothing of that is done — the state stays
`ST_REGISTERING` while the still-armed register watchdog, on expiry,
reverts it to `ST_DEREGISTERED` (and restarts the sender). -/
theorem registered_commit_point (st : ProxyState)
    (ackOk pendingOk cs : Bool) (replayOnFail : List Command)
    (hreg : st.state = InnerState.registering)
    (harm : st.registerTimerArmed = true) :
    (ackOk = true ∧ pendingOk = true →
        (on_routing_info_add_client_self st true ackOk pendingOk cs replayOnFail).state
            = InnerState.registered
        ∧ (on_routing_info_add_client_self st true ackOk pendingOk cs replayOnFail).keepaliveStartCalled
            = true
        ∧ (on_routing_info_add_client_self st true ackOk pendingOk cs replayOnFail).hostNotified
            = [InnerState.registered]
        ∧ (on_routing_info_add_client_self st true ackOk pendingOk cs replayOnFail).emitted
            = Command.registeredAck :: send_pending_commands_emitted st
        ∧ (on_routing_info_add_client_self st true ackOk pendingOk cs replayOnFail).registerTimerArmed
            = false)
    ∧ (¬(ackOk = true ∧ pendingOk = true) →
        (on_routing_info_add_client_self st true ackOk pendingOk cs replayOnFail).state
            = InnerState.registering
        ∧ (on_routing_info_add_client_self st true ackOk pendingOk cs replayOnFail).keepaliveStartCalled
            = false
        ∧ (on_routing_info_add_client_self st true ackOk pendingOk cs replayOnFail).hostNotified
            = []
        ∧ (on_routing_info_add_client_self st true ackOk pendingOk cs replayOnFail).registerTimerArmed
            = true
        ∧ (register_application_timeout_cbk
            (on_routing_info_add_client_self st true ackOk pendingOk cs replayOnFail).state
            false).1 = InnerState.deregistered) := by
  cases ackOk <;> cases pendingOk <;>
    simp [on_routing_info_add_client_self, hreg, harm,
          register_application_timeout_cbk]

/-- Witness for C1: a registering proxy with an armed watchdog, one pending
offer and both sends succeeding. -/
theorem registered_commit_point_witness :
    ((⟨InnerState.registering, true, [⟨1, 2, 3, 4⟩], [], [], [], false⟩ : ProxyState).state
        = InnerState.registering
      ∧ (⟨InnerState.registering, true, [⟨1, 2, 3, 4⟩], [], [], [], false⟩ : ProxyState).registerTimerArmed
        = true)
    ∧ ((true = true ∧ true = true →
        (on_routing_info_add_client_self
            ⟨InnerState.registering, true, [⟨1, 2, 3, 4⟩], [], [], [], false⟩
            true true true true []).state = InnerState.registered
        ∧ (on_routing_info_add_client_self
            ⟨InnerState.registering, true, [⟨1, 2, 3, 4⟩], [], [], [], false⟩
            true true true true []).keepaliveStartCalled = true
        ∧ (on_routing_info_add_client_self
            ⟨InnerState.registering, true, [⟨1, 2, 3, 4⟩], [], [], [], false⟩
            true true true true []).hostNotified = [InnerState.registered]
        ∧ (on_routing_info_add_client_self
            ⟨InnerState.registering, true, [⟨1, 2, 3, 4⟩], [], [], [], false⟩
            true true true true []).emitted
          = Command.registeredAck :: send_pending_commands_emitted
              ⟨InnerState.registering, true, [⟨1, 2, 3, 4⟩], [], [], [], false⟩
        ∧ (on_routing_info_add_client_self
            ⟨InnerState.registering, true, [⟨1, 2, 3, 4⟩], [], [], [], false⟩
            true true true true []).registerTimerArmed = false)
    ∧ (¬(true = true ∧ true = true) →
        (on_routing_info_add_client_self
            ⟨InnerState.registering, true, [⟨1, 2, 3, 4⟩], [], [], [], false⟩
            true true true true []).state = InnerState.registering
        ∧ (on_routing_info_add_client_self
            ⟨InnerState.registering, true, [⟨1, 2, 3, 4⟩], [], [], [], false⟩
            true true true true []).keepaliveStartCalled = false
        ∧ (on_routing_info_add_client_self
            ⟨InnerState.registering, true, [⟨1, 2, 3, 4⟩], [], [], [], false⟩
            true true true true []).hostNotified = []
        ∧ (on_routing_info_add_client_self
            ⟨InnerState.registering, true, [⟨1, 2, 3, 4⟩], [], [], [], false⟩
            true true true true []).registerTimerArmed = true
        ∧ (register_application_timeout_cbk
            (on_routing_info_add_client_self
              ⟨InnerState.registering, true, [⟨1, 2, 3, 4⟩], [], [], [], false⟩
              true true true true []).state false).1 = InnerState.deregistered)) :=
  ⟨⟨by decide, by decide⟩,
    registered_commit_point ⟨InnerState.registering, true, [⟨1, 2, 3, 4⟩], [], [], [], false⟩
      true true true [] (by decide) (by decide)⟩

/-- C8: an `ASSIGN_CLIENT_ACK` carrying `VSOMEIP_CLIENT_UNSET` received
while `ST_ASSIGNING` is treated as failure: the state does not advance to
`ST_ASSIGNED` (it stays `ST_ASSIGNING`), the host client id is not set, and
no `REGISTER_APPLICATION` is sent, whatever the started/receiver/sender
context. -/
theorem assign_ack_unset_rejected (timerArmed : Bool)
    (isStarted receiverPresent isConnected senderPresent : Bool) :
    (on_client_assign_ack InnerState.assigning timerArmed VSOMEIP_CLIENT_UNSET
        isStarted receiverPresent isConnected senderPresent).state
      = InnerState.assigning
    ∧ (on_client_assign_ack InnerState.assigning timerArmed VSOMEIP_CLIENT_UNSET
        isStarted receiverPresent isConnected senderPresent).setClientCalls = []
    ∧ (on_client_assign_ack InnerState.assigning timerArmed VSOMEIP_CLIENT_UNSET
        isStarted receiverPresent isConnected senderPresent).registerAppSent = false := by
  simp [on_client_assign_ack]

/-- C9: a routing-info `ADD_CLIENT` entry for the proxy's own client id
received while already `ST_REGISTERED` is a no-op: the state stays
`ST_REGISTERED`, no frame — in particular no `REGISTERED_ACK` and no
replay command — is emitted, no host notification is produced, keepalive is
not started again and the watchdog is untouched. -/
theorem add_client_self_registered_noop (st : ProxyState)
    (ackOk pendingOk cs : Bool) (replayOnFail : List Command)
    (hreg : st.state = InnerState.registered) :
    (on_routing_info_add_client_self st true ackOk pendingOk cs replayOnFail).state
        = InnerState.registered
    ∧ (on_routing_info_add_client_self st true ackOk pendingOk cs replayOnFail).emitted = []
    ∧ (on_routing_info_add_client_self st true ackOk pendingOk cs replayOnFail).hostNotified = []
    ∧ (on_routing_info_add_client_self st true ackOk pendingOk cs replayOnFail).keepaliveStartCalled
        = false
    ∧ (on_routing_info_add_client_self st true ackOk pendingOk cs replayOnFail).registerTimerArmed
        = st.registerTimerArmed := by
  simp [on_routing_info_add_client_self, hreg]

/-- Witness for C9 at a registered proxy with a pending offer. -/
theorem add_client_self_registered_noop_witness :
    (⟨InnerState.registered, false, [⟨1, 2, 3, 4⟩], [], [], [], false⟩ : ProxyState).state
        = InnerState.registered
    ∧ ((on_routing_info_add_client_self
          ⟨InnerState.registered, false, [⟨1, 2, 3, 4⟩], [], [], [], false⟩
          true true true true []).state = InnerState.registered
      ∧ (on_routing_info_add_client_self
          ⟨InnerState.registered, false, [⟨1, 2, 3, 4⟩], [], [], [], false⟩
          true true true true []).emitted = []
      ∧ (on_routing_info_add_client_self
          ⟨InnerState.registered, false, [⟨1, 2, 3, 4⟩], [], [], [], false⟩
          true true true true []).hostNotified = []
      ∧ (on_routing_info_add_client_self
          ⟨InnerState.registered, false, [⟨1, 2, 3, 4⟩], [], [], [], false⟩
          true true true true []).keepaliveStartCalled = false
      ∧ (on_routing_info_add_client_self
          ⟨InnerState.registered, false, [⟨1, 2, 3, 4⟩], [], [], [], false⟩
          true true true true []).registerTimerArmed
        = (⟨InnerState.registered, false, [⟨1, 2, 3, 4⟩], [], [], [], false⟩ : ProxyState).registerTimerArmed) :=
  ⟨by decide,
    add_client_self_registered_noop
      ⟨InnerState.registered, false, [⟨1, 2, 3, 4⟩], [], [], [], false⟩
      true true true [] (by decide)⟩

end Vsomeip
